import Mathlib

/-!
Shallow embedding of `src/stock_recommendation.py` (the `filter_stocks`
function) and proofs of the specified properties of the stock
recommendation engine.

A pandas dataframe row is modelled as a `StockRecord`; the dataframe may
carry further columns beyond the five the engine reads, modelled by the
`extra` field, which the final projection drops.  The numeric columns,
the asset size and the expected return are Python floats compared with
`<`, `<=`, `between`; they are modelled as rationals (`ℚ`), on which all
these comparisons are exact and decidable.  The risk preference and
marital status are the literal strings the source compares against.
`filter_stocks` raises `ValueError` on an unrecognized risk preference;
this is modelled by returning `Except String`.
-/

/-- One row of the loaded stock table: stock code (`股票代码`), the four
technical indicators `K`, `D`, `J`, `RSI`, and `extra` standing for any
further dataframe columns not read by the engine. -/
structure StockRecord where
  code : String
  K : ℚ
  D : ℚ
  J : ℚ
  RSI : ℚ
  extra : String
deriving DecidableEq, Repr

/-- One row of the result table: the five projected columns
`(code, K, D, J, RSI)`. -/
structure ResultRow where
  code : String
  K : ℚ
  D : ℚ
  J : ℚ
  RSI : ℚ
deriving DecidableEq, Repr

/-- The final projection `filtered[['股票代码', 'K', 'D', 'J', 'RSI']]`
applied to one row. -/
def project (r : StockRecord) : ResultRow :=
  ⟨r.code, r.K, r.D, r.J, r.RSI⟩

/-- pandas `Series.between(lo, hi)`: inclusive on both ends by default. -/
def between (x lo hi : ℚ) : Bool :=
  decide (lo ≤ x ∧ x ≤ hi)

/-- Stage 1 of `filter_stocks` (lines 13–24): the risk-preference
if/elif ladder; the final `else` raises `ValueError`. -/
def stage1 (df : List StockRecord) (risk_preference : String) :
    Except String (List StockRecord) :=
  if risk_preference = "厌恶风险" then
    .ok (df.filter fun r => decide (r.K < 30 ∧ r.D < 30 ∧ r.J < 30 ∧ r.RSI < 50))
  else if risk_preference = "中立" then
    .ok (df.filter fun r =>
      between r.K 30 70 && between r.D 30 70 && between r.J 30 70 && between r.RSI 30 70)
  else if risk_preference = "偏爱风险" then
    .ok (df.filter fun r => decide (r.K > 70 ∧ r.D > 70 ∧ r.J > 70 ∧ r.RSI > 50))
  else
    .error "风险偏好输入错误，请输入：厌恶风险、中立、偏爱风险"

/-- Stage 2 of `filter_stocks` (lines 27–32): the asset-size bracket
ladder, filtering on `RSI` only. -/
def stage2 (filtered : List StockRecord) (asset_size : ℚ) : List StockRecord :=
  if asset_size < 100000 then
    filtered.filter fun r => decide (r.RSI < 30)
  else if 100000 ≤ asset_size ∧ asset_size < 1000000 then
    filtered.filter fun r => between r.RSI 30 70
  else
    filtered.filter fun r => decide (r.RSI > 70)

/-- Stage 3 of `filter_stocks` (lines 35–40): the marital-status
ladder; an unrecognized value falls through with no filtering. -/
def stage3 (filtered : List StockRecord) (marital_status : String) : List StockRecord :=
  if marital_status = "已婚" then
    filtered.filter fun r => decide (r.RSI < 50)
  else if marital_status = "未婚" then
    filtered.filter fun r => decide (r.RSI ≥ 50)
  else
    filtered

/-- Stage 4 of `filter_stocks` (lines 43–48): the expected-return
bracket ladder, filtering on `RSI` only. -/
def stage4 (filtered : List StockRecord) (expected_return : ℚ) : List StockRecord :=
  if expected_return < 5 then
    filtered.filter fun r => decide (r.RSI < 30)
  else if 5 ≤ expected_return ∧ expected_return < 10 then
    filtered.filter fun r => between r.RSI 30 70
  else
    filtered.filter fun r => decide (r.RSI > 70)

/-- pandas `DataFrame.drop_duplicates()`: keep the first occurrence of
each row value, preserving order.  `seen` accumulates the row values
already emitted. -/
def dropDuplicates (seen : List ResultRow) : List ResultRow → List ResultRow
  | [] => []
  | r :: rs =>
    if r ∈ seen then dropDuplicates seen rs
    else r :: dropDuplicates (r :: seen) rs

/-- The rows surviving stages 2–4, projected onto the five output
columns (line 50, before `drop_duplicates`). -/
def projectedSurvivors (f1 : List StockRecord) (asset_size : ℚ)
    (marital_status : String) (expected_return : ℚ) : List ResultRow :=
  (stage4 (stage3 (stage2 f1 asset_size) marital_status) expected_return).map project

/-- `filter_stocks(df, risk_preference, asset_size, marital_status,
expected_return)` (lines 10–50): the four sequential stages, then
projection and deduplication. -/
def filter_stocks (df : List StockRecord) (risk_preference : String)
    (asset_size : ℚ) (marital_status : String) (expected_return : ℚ) :
    Except String (List ResultRow) :=
  match stage1 df risk_preference with
  | .error e => .error e
  | .ok f1 =>
    .ok (dropDuplicates [] (projectedSurvivors f1 asset_size marital_status expected_return))

/-! ### Constraint predicates of the four stages, restricted to `RSI` -/

/-- The Stage-1 constraint on `RSI` alone, per recognized risk preference. -/
def riskRSI (risk_preference : String) (rsi : ℚ) : Prop :=
  (risk_preference = "厌恶风险" → rsi < 50) ∧
  (risk_preference = "中立" → 30 ≤ rsi ∧ rsi ≤ 70) ∧
  (risk_preference = "偏爱风险" → rsi > 50)

/-- The Stage-2 asset-size bracket constraint on `RSI`. -/
def assetRSI (asset_size rsi : ℚ) : Prop :=
  if asset_size < 100000 then rsi < 30
  else if asset_size < 1000000 then 30 ≤ rsi ∧ rsi ≤ 70
  else rsi > 70

/-- The Stage-3 marital-status constraint on `RSI`; trivial for values
other than the two recognized ones. -/
def maritalRSI (marital_status : String) (rsi : ℚ) : Prop :=
  (marital_status = "已婚" → rsi < 50) ∧ (marital_status = "未婚" → rsi ≥ 50)

/-- The Stage-4 expected-return bracket constraint on `RSI`. -/
def returnRSI (expected_return rsi : ℚ) : Prop :=
  if expected_return < 5 then rsi < 30
  else if expected_return < 10 then 30 ≤ rsi ∧ rsi ≤ 70
  else rsi > 70

/-! ### Helper lemmas -/

theorem mem_dropDuplicates (x : ResultRow) (seen l : List ResultRow) :
    x ∈ dropDuplicates seen l ↔ x ∈ l ∧ x ∉ seen := by
  induction l generalizing seen with
  | nil => simp [dropDuplicates]
  | cons r rs ih =>
    rw [dropDuplicates]
    by_cases hr : r ∈ seen
    · rw [if_pos hr, ih]
      constructor
      · rintro ⟨hx, hs⟩
        exact ⟨List.mem_cons_of_mem _ hx, hs⟩
      · rintro ⟨hx, hs⟩
        rcases List.mem_cons.mp hx with h | h
        · exact absurd (h ▸ hr) hs
        · exact ⟨h, hs⟩
    · rw [if_neg hr]
      by_cases hxr : x = r
      · subst hxr
        simp [hr]
      · simp only [List.mem_cons, ih, not_or]
        constructor
        · rintro (h | ⟨h1, _, h3⟩)
          · exact absurd h hxr
          · exact ⟨Or.inr h1, h3⟩
        · rintro ⟨h | h1, h2⟩
          · exact absurd h hxr
          · exact Or.inr ⟨h1, hxr, h2⟩

theorem dropDuplicates_nodup (seen l : List ResultRow) :
    (dropDuplicates seen l).Nodup := by
  induction l generalizing seen with
  | nil => simp [dropDuplicates]
  | cons r rs ih =>
    rw [dropDuplicates]
    by_cases hr : r ∈ seen
    · rw [if_pos hr]
      exact ih seen
    · rw [if_neg hr]
      refine List.nodup_cons.mpr ⟨?_, ih (r :: seen)⟩
      intro hmem
      exact ((mem_dropDuplicates r (r :: seen) rs).mp hmem).2 (List.mem_cons_self r seen)

theorem dropDuplicates_sublist (seen l : List ResultRow) :
    (dropDuplicates seen l).Sublist l := by
  induction l generalizing seen with
  | nil => simp [dropDuplicates]
  | cons r rs ih =>
    rw [dropDuplicates]
    by_cases hr : r ∈ seen
    · rw [if_pos hr]
      exact (ih seen).cons r
    · rw [if_neg hr]
      exact (ih (r :: seen)).cons₂ r

theorem dropDuplicates_firstIndex (seen l : List ResultRow) :
    (dropDuplicates seen l).Pairwise (fun x y => l.indexOf x < l.indexOf y) := by
  induction l generalizing seen with
  | nil => simp [dropDuplicates]
  | cons r rs ih =>
    rw [dropDuplicates]
    by_cases hr : r ∈ seen
    · rw [if_pos hr]
      refine List.Pairwise.imp_of_mem ?_ (ih seen)
      intro x y hx hy hlt
      have hxr : x ≠ r := fun h => ((mem_dropDuplicates x seen rs).mp hx).2 (h ▸ hr)
      have hyr : y ≠ r := fun h => ((mem_dropDuplicates y seen rs).mp hy).2 (h ▸ hr)
      rw [List.indexOf_cons_ne _ (Ne.symm hxr), List.indexOf_cons_ne _ (Ne.symm hyr)]
      omega
    · rw [if_neg hr]
      refine List.pairwise_cons.mpr ⟨?_, ?_⟩
      · intro y hy
        have hyr : y ≠ r := fun h =>
          ((mem_dropDuplicates y (r :: seen) rs).mp hy).2 (h ▸ List.mem_cons_self r seen)
        rw [List.indexOf_cons_self, List.indexOf_cons_ne _ (Ne.symm hyr)]
        omega
      · refine List.Pairwise.imp_of_mem ?_ (ih (r :: seen))
        intro x y hx hy hlt
        have hxr : x ≠ r := fun h =>
          ((mem_dropDuplicates x (r :: seen) rs).mp hx).2 (h ▸ List.mem_cons_self r seen)
        have hyr : y ≠ r := fun h =>
          ((mem_dropDuplicates y (r :: seen) rs).mp hy).2 (h ▸ List.mem_cons_self r seen)
        rw [List.indexOf_cons_ne _ (Ne.symm hxr), List.indexOf_cons_ne _ (Ne.symm hyr)]
        omega

theorem filter_stocks_ok {df : List StockRecord} {risk_preference : String}
    {asset_size : ℚ} {marital_status : String} {expected_return : ℚ}
    {out : List ResultRow}
    (h : filter_stocks df risk_preference asset_size marital_status expected_return = .ok out) :
    ∃ f1, stage1 df risk_preference = .ok f1 ∧
      out = dropDuplicates [] (projectedSurvivors f1 asset_size marital_status expected_return) := by
  unfold filter_stocks at h
  cases hs : stage1 df risk_preference with
  | error msg => rw [hs] at h; exact Except.noConfusion h
  | ok f1 =>
    rw [hs] at h
    injection h with h
    exact ⟨f1, rfl, h.symm⟩

theorem stage1_subset {df f1 : List StockRecord} {risk_preference : String}
    (h : stage1 df risk_preference = .ok f1) : ∀ r ∈ f1, r ∈ df := by
  unfold stage1 at h
  split_ifs at h
  · injection h with h
    subst h
    intro r hr
    exact (List.mem_filter.mp hr).1
  · injection h with h
    subst h
    intro r hr
    exact (List.mem_filter.mp hr).1
  · injection h with h
    subst h
    intro r hr
    exact (List.mem_filter.mp hr).1

theorem stage2_subset {l : List StockRecord} {asset_size : ℚ} :
    ∀ r ∈ stage2 l asset_size, r ∈ l := by
  intro r hr
  unfold stage2 at hr
  split_ifs at hr <;> exact (List.mem_filter.mp hr).1

theorem stage3_subset {l : List StockRecord} {marital_status : String} :
    ∀ r ∈ stage3 l marital_status, r ∈ l := by
  intro r hr
  unfold stage3 at hr
  split_ifs at hr
  · exact (List.mem_filter.mp hr).1
  · exact (List.mem_filter.mp hr).1
  · exact hr

theorem stage4_subset {l : List StockRecord} {expected_return : ℚ} :
    ∀ r ∈ stage4 l expected_return, r ∈ l := by
  intro r hr
  unfold stage4 at hr
  split_ifs at hr <;> exact (List.mem_filter.mp hr).1

theorem stage2_mem (l : List StockRecord) (asset_size : ℚ) (r : StockRecord) :
    r ∈ stage2 l asset_size ↔ r ∈ l ∧ assetRSI asset_size r.RSI := by
  unfold stage2 assetRSI
  rcases lt_or_le asset_size 100000 with h1 | h1
  · rw [if_pos h1, if_pos h1]
    simp [List.mem_filter]
  · rcases lt_or_le asset_size 1000000 with h2 | h2
    · rw [if_neg (not_lt.mpr h1), if_pos ⟨h1, h2⟩, if_neg (not_lt.mpr h1), if_pos h2]
      simp [List.mem_filter, between]
    · have hn : ¬(100000 ≤ asset_size ∧ asset_size < 1000000) := fun hc =>
        absurd hc.2 (not_lt.mpr h2)
      rw [if_neg (not_lt.mpr h1), if_neg hn, if_neg (not_lt.mpr h1), if_neg (not_lt.mpr h2)]
      simp [List.mem_filter]

theorem stage3_mem (l : List StockRecord) (marital_status : String) (r : StockRecord) :
    r ∈ stage3 l marital_status ↔ r ∈ l ∧
      (if marital_status = "已婚" then r.RSI < 50
       else if marital_status = "未婚" then r.RSI ≥ 50
       else True) := by
  unfold stage3
  split_ifs
  · simp [List.mem_filter]
  · simp [List.mem_filter]
  · simp

theorem stage4_mem (l : List StockRecord) (expected_return : ℚ) (r : StockRecord) :
    r ∈ stage4 l expected_return ↔ r ∈ l ∧ returnRSI expected_return r.RSI := by
  unfold stage4 returnRSI
  rcases lt_or_le expected_return 5 with h1 | h1
  · rw [if_pos h1, if_pos h1]
    simp [List.mem_filter]
  · rcases lt_or_le expected_return 10 with h2 | h2
    · rw [if_neg (not_lt.mpr h1), if_pos ⟨h1, h2⟩, if_neg (not_lt.mpr h1), if_pos h2]
      simp [List.mem_filter, between]
    · have hn : ¬(5 ≤ expected_return ∧ expected_return < 10) := fun hc =>
        absurd hc.2 (not_lt.mpr h2)
      rw [if_neg (not_lt.mpr h1), if_neg hn, if_neg (not_lt.mpr h1), if_neg (not_lt.mpr h2)]
      simp [List.mem_filter]

theorem stage1_rsi {df f1 : List StockRecord} {risk_preference : String} {r : StockRecord}
    (h : stage1 df risk_preference = .ok f1) (hr : r ∈ f1) :
    riskRSI risk_preference r.RSI := by
  unfold riskRSI
  unfold stage1 at h
  split_ifs at h with h1 h2 h3
  · injection h with h
    subst h
    subst h1
    have hp := (List.mem_filter.mp hr).2
    simp only [decide_eq_true_eq] at hp
    exact ⟨fun _ => hp.2.2.2, fun hc => absurd hc (by decide),
      fun hc => absurd hc (by decide)⟩
  · injection h with h
    subst h
    subst h2
    have hp := (List.mem_filter.mp hr).2
    rw [Bool.and_eq_true, Bool.and_eq_true, Bool.and_eq_true] at hp
    have hrsi : 30 ≤ r.RSI ∧ r.RSI ≤ 70 := of_decide_eq_true hp.2
    exact ⟨fun hc => absurd hc (by decide), fun _ => hrsi,
      fun hc => absurd hc (by decide)⟩
  · injection h with h
    subst h
    subst h3
    have hp := (List.mem_filter.mp hr).2
    simp only [decide_eq_true_eq] at hp
    exact ⟨fun hc => absurd hc (by decide), fun hc => absurd hc (by decide),
      fun _ => hp.2.2.2⟩

theorem stage3_rsi {l : List StockRecord} {marital_status : String} {r : StockRecord}
    (hr : r ∈ stage3 l marital_status) : maritalRSI marital_status r.RSI := by
  have h := (stage3_mem l marital_status r).mp hr
  unfold maritalRSI
  split_ifs at h with h1 h2
  · exact ⟨fun _ => h.2, fun hc => absurd (h1.symm.trans hc) (by decide)⟩
  · exact ⟨fun hc => absurd hc h1, fun _ => h.2⟩
  · exact ⟨fun hc => absurd hc h1, fun hc => absurd hc h2⟩

/-! ### Claims -/

/-- C1: for every input table and every profile with a recognized risk
preference, every row of the result is a row of the input table
projected onto the five output columns; no row appears in the output
that is not present in the input. -/
theorem c1_output_rows_come_from_input (df : List StockRecord) (risk_preference : String)
    (asset_size : ℚ) (marital_status : String) (expected_return : ℚ) (out : List ResultRow)
    (h : filter_stocks df risk_preference asset_size marital_status expected_return = .ok out) :
    ∀ row ∈ out, ∃ r ∈ df, project r = row := by
  obtain ⟨f1, hs, hout⟩ := filter_stocks_ok h
  intro row hrow
  rw [hout] at hrow
  have hmem := ((mem_dropDuplicates row [] _).mp hrow).1
  unfold projectedSurvivors at hmem
  obtain ⟨r, hr, hpr⟩ := List.mem_map.mp hmem
  exact ⟨r, stage1_subset hs r (stage2_subset r (stage3_subset r (stage4_subset r hr))), hpr⟩

/-- Witness for C1: Scenario B of the spec, with the sole output row
traced back to the input table. -/
theorem c1_output_rows_come_from_input_witness :
    ∃ r ∈ [(⟨"002", 50, 50, 50, 50, ""⟩ : StockRecord)],
      project r = (⟨"002", 50, 50, 50, 50⟩ : ResultRow) :=
  c1_output_rows_come_from_input [⟨"002", 50, 50, 50, 50, ""⟩] "中立" 500000 "未婚" 7
    [⟨"002", 50, 50, 50, 50⟩] rfl ⟨"002", 50, 50, 50, 50⟩ (List.mem_singleton.mpr rfl)

/-- C2: the RSI of every output row satisfies the conjunction of the RSI
constraints of all four stages; consequently, when those constraints are
mutually contradictory the result is empty, and — the call having
returned `.ok` — no error is raised. -/
theorem c2_rsi_satisfies_all_four_stages (df : List StockRecord) (risk_preference : String)
    (asset_size : ℚ) (marital_status : String) (expected_return : ℚ) (out : List ResultRow)
    (h : filter_stocks df risk_preference asset_size marital_status expected_return = .ok out) :
    (∀ row ∈ out,
      riskRSI risk_preference row.RSI ∧ assetRSI asset_size row.RSI ∧
        maritalRSI marital_status row.RSI ∧ returnRSI expected_return row.RSI) ∧
    ((∀ q : ℚ, ¬(riskRSI risk_preference q ∧ assetRSI asset_size q ∧
        maritalRSI marital_status q ∧ returnRSI expected_return q)) → out = []) := by
  obtain ⟨f1, hs, hout⟩ := filter_stocks_ok h
  have hmain : ∀ row ∈ out,
      riskRSI risk_preference row.RSI ∧ assetRSI asset_size row.RSI ∧
        maritalRSI marital_status row.RSI ∧ returnRSI expected_return row.RSI := by
    intro row hrow
    rw [hout] at hrow
    have hmem := ((mem_dropDuplicates row [] _).mp hrow).1
    unfold projectedSurvivors at hmem
    obtain ⟨r, hr, hpr⟩ := List.mem_map.mp hmem
    have h4 : returnRSI expected_return r.RSI := ((stage4_mem _ _ r).mp hr).2
    have hr3 := stage4_subset r hr
    have h3 : maritalRSI marital_status r.RSI := stage3_rsi hr3
    have hr2 := stage3_subset r hr3
    have h2 : assetRSI asset_size r.RSI := ((stage2_mem _ _ r).mp hr2).2
    have hr1 := stage2_subset r hr2
    have h1 : riskRSI risk_preference r.RSI := stage1_rsi hs hr1
    have hRSI : row.RSI = r.RSI := by rw [← hpr]; rfl
    rw [hRSI]
    exact ⟨h1, h2, h3, h4⟩
  refine ⟨hmain, fun hcontra => ?_⟩
  cases hnil : out with
  | nil => rfl
  | cons row rest =>
    exact absurd (hmain row (hnil ▸ List.mem_cons_self row rest)) (hcontra row.RSI)

/-- Witness for C2: Scenario B of the spec; the output row with RSI 50
satisfies all four stage constraints. -/
theorem c2_rsi_satisfies_all_four_stages_witness :
    riskRSI "中立" (50 : ℚ) ∧ assetRSI 500000 50 ∧ maritalRSI "未婚" 50 ∧ returnRSI 7 50 :=
  (c2_rsi_satisfies_all_four_stages [⟨"002", 50, 50, 50, 50, ""⟩] "中立" 500000 "未婚" 7
      [⟨"002", 50, 50, 50, 50⟩] rfl).1
    ⟨"002", 50, 50, 50, 50⟩ (List.mem_singleton.mpr rfl)

/-- C3: `filter_stocks` fails exactly when the risk preference is not one
of the three enumerated values, for every table (the empty one included);
on that failure the return value is `.error`, so no result table is
produced. -/
theorem c3_error_iff_unrecognized_risk (df : List StockRecord) (risk_preference : String)
    (asset_size : ℚ) (marital_status : String) (expected_return : ℚ) :
    (∃ msg, filter_stocks df risk_preference asset_size marital_status expected_return =
        .error msg) ↔
      risk_preference ≠ "厌恶风险" ∧ risk_preference ≠ "中立" ∧
        risk_preference ≠ "偏爱风险" := by
  unfold filter_stocks stage1
  split_ifs with h1 h2 h3
  · simp [h1]
  · simp [h1, h2]
  · simp [h1, h2, h3]
  · simp [h1, h2, h3]

/-- C4: Stage 1 keeps exactly the rows satisfying the risk-preference
predicate: Averse keeps K<30, D<30, J<30, RSI<50; Neutral keeps K, D, J,
RSI each in [30,70] inclusive; Seeking keeps K>70, D>70, J>70, RSI>50. -/
theorem c4_stage1_exact (df f1 : List StockRecord) (risk_preference : String)
    (r : StockRecord) (h : stage1 df risk_preference = .ok f1) :
    (risk_preference = "厌恶风险" →
      (r ∈ f1 ↔ r ∈ df ∧ r.K < 30 ∧ r.D < 30 ∧ r.J < 30 ∧ r.RSI < 50)) ∧
    (risk_preference = "中立" →
      (r ∈ f1 ↔ r ∈ df ∧ (30 ≤ r.K ∧ r.K ≤ 70) ∧ (30 ≤ r.D ∧ r.D ≤ 70) ∧
        (30 ≤ r.J ∧ r.J ≤ 70) ∧ (30 ≤ r.RSI ∧ r.RSI ≤ 70))) ∧
    (risk_preference = "偏爱风险" →
      (r ∈ f1 ↔ r ∈ df ∧ r.K > 70 ∧ r.D > 70 ∧ r.J > 70 ∧ r.RSI > 50)) := by
  unfold stage1 at h
  split_ifs at h with h1 h2 h3
  · injection h with h
    subst h
    refine ⟨fun _ => ?_, fun hc => absurd (h1.symm.trans hc) (by decide),
      fun hc => absurd (h1.symm.trans hc) (by decide)⟩
    simp [List.mem_filter]
  · injection h with h
    subst h
    refine ⟨fun hc => absurd (hc.symm.trans h2) (by decide), fun _ => ?_,
      fun hc => absurd (h2.symm.trans hc) (by decide)⟩
    simp [List.mem_filter, between, and_assoc]
  · injection h with h
    subst h
    refine ⟨fun hc => absurd (hc.symm.trans h3) (by decide),
      fun hc => absurd (hc.symm.trans h3) (by decide), fun _ => ?_⟩
    simp [List.mem_filter]

/-- Witness for C4: the Neutral predicate evaluated on a concrete
one-row table. -/
theorem c4_stage1_exact_witness :
    (⟨"002", 50, 50, 50, 50, ""⟩ : StockRecord) ∈
        [(⟨"002", 50, 50, 50, 50, ""⟩ : StockRecord)] ↔
      (⟨"002", 50, 50, 50, 50, ""⟩ : StockRecord) ∈
          [(⟨"002", 50, 50, 50, 50, ""⟩ : StockRecord)] ∧
        ((30 : ℚ) ≤ 50 ∧ (50 : ℚ) ≤ 70) ∧ ((30 : ℚ) ≤ 50 ∧ (50 : ℚ) ≤ 70) ∧
          ((30 : ℚ) ≤ 50 ∧ (50 : ℚ) ≤ 70) ∧ ((30 : ℚ) ≤ 50 ∧ (50 : ℚ) ≤ 70) :=
  (c4_stage1_exact [⟨"002", 50, 50, 50, 50, ""⟩] [⟨"002", 50, 50, 50, 50, ""⟩] "中立"
      ⟨"002", 50, 50, 50, 50, ""⟩ rfl).2.1 rfl

/-- C5: Stage 2 keeps exactly the rows whose RSI matches the asset-size
bracket; every asset size below 100000, zero and negative values
included, is routed to the RSI<30 bracket. -/
theorem c5_stage2_exact (l : List StockRecord) (asset_size : ℚ) (r : StockRecord) :
    r ∈ stage2 l asset_size ↔ r ∈ l ∧
      (if asset_size < 100000 then r.RSI < 30
       else if asset_size < 1000000 then 30 ≤ r.RSI ∧ r.RSI ≤ 70
       else r.RSI > 70) := by
  rw [stage2_mem]
  unfold assetRSI
  exact Iff.rfl

/-- C6: Stage 3 keeps exactly the rows with RSI<50 for Married and
exactly those with RSI ≥ 50 for Single; any other marital status leaves
the survivor list unchanged. -/
theorem c6_stage3_exact (l : List StockRecord) (marital_status : String) (r : StockRecord) :
    (r ∈ stage3 l marital_status ↔ r ∈ l ∧
      (if marital_status = "已婚" then r.RSI < 50
       else if marital_status = "未婚" then r.RSI ≥ 50
       else True)) ∧
    (marital_status ≠ "已婚" → marital_status ≠ "未婚" → stage3 l marital_status = l) := by
  refine ⟨stage3_mem l marital_status r, fun h1 h2 => ?_⟩
  unfold stage3
  rw [if_neg h1, if_neg h2]

/-- Witness for C6: an unrecognized marital status passes the survivor
list through unchanged. -/
theorem c6_stage3_exact_witness :
    stage3 [(⟨"002", 50, 50, 50, 50, ""⟩ : StockRecord)] "离异" =
      [(⟨"002", 50, 50, 50, 50, ""⟩ : StockRecord)] :=
  (c6_stage3_exact [⟨"002", 50, 50, 50, 50, ""⟩] "离异" ⟨"002", 50, 50, 50, 50, ""⟩).2
    (by decide) (by decide)

/-- C7: Stage 4 keeps exactly the rows whose RSI matches the
expected-return bracket: RSI<30 below 5, RSI in [30,70] from 5 up to but
excluding 10, RSI>70 from 10 on. -/
theorem c7_stage4_exact (l : List StockRecord) (expected_return : ℚ) (r : StockRecord) :
    r ∈ stage4 l expected_return ↔ r ∈ l ∧
      (if expected_return < 5 then r.RSI < 30
       else if expected_return < 10 then 30 ≤ r.RSI ∧ r.RSI ≤ 70
       else r.RSI > 70) := by
  rw [stage4_mem]
  unfold returnRSI
  exact Iff.rfl

/-- C8: the result is the projection of the four-stage survivors onto the
five output columns with exact duplicates removed: it has the same row
values as the projected survivors, contains no duplicate row, is a
sublist of the projected survivors, and lists rows in the order of their
first occurrence. -/
theorem c8_projection_dedup (df f1 : List StockRecord) (risk_preference : String)
    (asset_size : ℚ) (marital_status : String) (expected_return : ℚ) (out : List ResultRow)
    (hs : stage1 df risk_preference = .ok f1)
    (h : filter_stocks df risk_preference asset_size marital_status expected_return = .ok out) :
    (∀ row, row ∈ out ↔
      row ∈ projectedSurvivors f1 asset_size marital_status expected_return) ∧
    out.Nodup ∧
    out.Sublist (projectedSurvivors f1 asset_size marital_status expected_return) ∧
    out.Pairwise (fun x y =>
      (projectedSurvivors f1 asset_size marital_status expected_return).indexOf x <
        (projectedSurvivors f1 asset_size marital_status expected_return).indexOf y) := by
  obtain ⟨f1h, hs2, hout⟩ := filter_stocks_ok h
  rw [hs] at hs2
  injection hs2 with hs2
  subst hs2
  subst hout
  refine ⟨fun row => ?_, dropDuplicates_nodup _ _, dropDuplicates_sublist _ _,
    dropDuplicates_firstIndex _ _⟩
  rw [mem_dropDuplicates]
  simp

/-- Witness for C8: an input with an exact duplicate pair (differing only
in the dropped extra column) and a third row sharing the code but not the
RSI; the duplicate collapses to one while both distinct rows remain. -/
theorem c8_projection_dedup_witness :
    ((⟨"002", 50, 50, 50, 50⟩ : ResultRow) ∈
        ([⟨"002", 50, 50, 50, 50⟩, ⟨"002", 50, 50, 50, 60⟩] : List ResultRow) ↔
      (⟨"002", 50, 50, 50, 50⟩ : ResultRow) ∈
        projectedSurvivors
          [⟨"002", 50, 50, 50, 50, "a"⟩, ⟨"002", 50, 50, 50, 50, "b"⟩,
            ⟨"002", 50, 50, 50, 60, ""⟩] 500000 "未婚" 7) ∧
    ([⟨"002", 50, 50, 50, 50⟩, ⟨"002", 50, 50, 50, 60⟩] : List ResultRow).Nodup :=
  ⟨(c8_projection_dedup
      [⟨"002", 50, 50, 50, 50, "a"⟩, ⟨"002", 50, 50, 50, 50, "b"⟩, ⟨"002", 50, 50, 50, 60, ""⟩]
      [⟨"002", 50, 50, 50, 50, "a"⟩, ⟨"002", 50, 50, 50, 50, "b"⟩, ⟨"002", 50, 50, 50, 60, ""⟩]
      "中立" 500000 "未婚" 7 [⟨"002", 50, 50, 50, 50⟩, ⟨"002", 50, 50, 50, 60⟩]
      rfl rfl).1 ⟨"002", 50, 50, 50, 50⟩,
    (c8_projection_dedup
      [⟨"002", 50, 50, 50, 50, "a"⟩, ⟨"002", 50, 50, 50, 50, "b"⟩, ⟨"002", 50, 50, 50, 60, ""⟩]
      [⟨"002", 50, 50, 50, 50, "a"⟩, ⟨"002", 50, 50, 50, 50, "b"⟩, ⟨"002", 50, 50, 50, 60, ""⟩]
      "中立" 500000 "未婚" 7 [⟨"002", 50, 50, 50, 50⟩, ⟨"002", 50, 50, 50, 60⟩]
      rfl rfl).2.1⟩

/-- C9: the Stage-1-only survivor set is a superset of the full
four-stage result: every row of the final output is the projection of
some Stage-1 survivor, so stages 2–4 never add a row. -/
theorem c9_stage1_only_is_superset (df f1 : List StockRecord) (risk_preference : String)
    (asset_size : ℚ) (marital_status : String) (expected_return : ℚ) (out : List ResultRow)
    (hs : stage1 df risk_preference = .ok f1)
    (h : filter_stocks df risk_preference asset_size marital_status expected_return = .ok out) :
    ∀ row ∈ out, ∃ r ∈ f1, project r = row := by
  obtain ⟨f1h, hs2, hout⟩ := filter_stocks_ok h
  rw [hs] at hs2
  injection hs2 with hs2
  subst hs2
  intro row hrow
  rw [hout] at hrow
  have hmem := ((mem_dropDuplicates row [] _).mp hrow).1
  unfold projectedSurvivors at hmem
  obtain ⟨r, hr, hpr⟩ := List.mem_map.mp hmem
  exact ⟨r, stage2_subset r (stage3_subset r (stage4_subset r hr)), hpr⟩

/-- Witness for C9: a Seeking profile whose single output row comes from
the Stage-1 survivor list. -/
theorem c9_stage1_only_is_superset_witness :
    ∃ r ∈ [(⟨"009", 80, 80, 80, 80, ""⟩ : StockRecord)],
      project r = (⟨"009", 80, 80, 80, 80⟩ : ResultRow) :=
  c9_stage1_only_is_superset [⟨"009", 80, 80, 80, 80, ""⟩] [⟨"009", 80, 80, 80, 80, ""⟩]
    "偏爱风险" 2000000 "未婚" 12 [⟨"009", 80, 80, 80, 80⟩] rfl rfl
    ⟨"009", 80, 80, 80, 80⟩ (List.mem_singleton.mpr rfl)

/-- C10: with risk preference Averse and marital status Single the result
is empty for every table, asset size and expected return: Stage 1 for
Averse admits only RSI<50 while Stage 3 for Single keeps only RSI ≥ 50. -/
theorem c10_averse_single_always_empty (df : List StockRecord)
    (asset_size expected_return : ℚ) :
    filter_stocks df "厌恶风险" asset_size "未婚" expected_return = .ok [] := by
  have h3 : stage3 (stage2 (df.filter fun r =>
      decide (r.K < 30 ∧ r.D < 30 ∧ r.J < 30 ∧ r.RSI < 50)) asset_size) "未婚" = [] := by
    unfold stage3
    rw [if_neg (by decide), if_pos rfl, List.filter_eq_nil_iff]
    intro r hr
    have hmem := stage2_subset r hr
    have hlt := (List.mem_filter.mp hmem).2
    simp only [decide_eq_true_eq] at hlt ⊢
    exact not_le.mpr hlt.2.2.2
  have h4 : stage4 ([] : List StockRecord) expected_return = [] := by
    unfold stage4
    split_ifs <;> rfl
  unfold filter_stocks
  rw [show stage1 df "厌恶风险" = .ok (df.filter fun r =>
    decide (r.K < 30 ∧ r.D < 30 ∧ r.J < 30 ∧ r.RSI < 50)) from rfl]
  show Except.ok (dropDuplicates [] (projectedSurvivors
      (df.filter fun r => decide (r.K < 30 ∧ r.D < 30 ∧ r.J < 30 ∧ r.RSI < 50))
      asset_size "未婚" expected_return)) = .ok []
  unfold projectedSurvivors
  rw [h3, h4]
  rfl
